import Mathlib

/-!
Shallow embedding of the Speeduino trigger-decoder core (decoders.cpp /
crankMaths.cpp and their headers): fixed-point time/angle conversion,
revolution-time bookkeeping, RPM clamping, the Dual-Wheel and Missing-Tooth
edge handlers, crank-angle reconstruction and the ignition end-tooth
scheduler.  Machine integers are modelled as `Nat`/`Int` with explicit
`% 2^w` wherever C overflow or casts matter.
-/

namespace Speeduino

/-- Number of values of a C `uint32_t` (`unsigned long` on the target). -/
def UINT32_LIMIT : Nat := 2 ^ 32

/-- Number of values of a C `uint16_t` (`unsigned int` on the target). -/
def UINT16_LIMIT : Nat := 2 ^ 16

/-- Wrap-around subtraction `a - b` of two `uint32_t` values (`a`, `b` < 2^32),
as performed by every `curTime - toothLastToothTime` gap computation. -/
def sub32 (a b : Nat) : Nat :=
  if b ≤ a then a - b else a + UINT32_LIMIT - b

/-- Modelled from the spec: the `RSHIFT_ROUND` macro of maths.h is not under
src/; the spec states conversions are `round(x) >> shift` with rounding to
nearest, i.e. add half of the divisor before shifting right. -/
def RSHIFT_ROUND (x b : Nat) : Nat := (x + 2 ^ (b - 1)) / 2 ^ b

/-- Modelled from the spec: the `UDIV_ROUND_CLOSEST` macro of maths.h is not
under src/; the spec states RPM and fixed-point divisions use round-to-nearest
integer division. -/
def UDIV_ROUND_CLOSEST (n d : Nat) : Nat := (n + d / 2) / d

/-- Modelled from the spec: `div360` of maths.h is not under src/; per the
spec `microsPerDegree = T / 360`. -/
def div360 (n : Nat) : Nat := n / 360

/-- Modelled from the spec: the `udiv_32_16_closest` fast path of maths.h is
not under src/; the spec states it is functionally equivalent to the general
rounded division, chosen only for performance, with a `uint16_t` result. -/
def udiv_32_16_closest (n d : Nat) : Nat := UDIV_ROUND_CLOSEST n d % UINT16_LIMIT

/-- Modelled from the spec: the `nudge` helper of maths.h is not under src/;
per the spec the end-tooth value is "clamp[ed] into the valid tooth-count
range", so `nudge lo hi v amt` clamps `v` into `[lo, hi]` (the nudge amount
plays no further role in that description). -/
def nudge (lo hi v _amt : Int) : Int := max lo (min hi v)

/-- `microsPerDegree_Shift` from decoders.h (UQ24.8 fixed point). -/
def microsPerDegree_Shift : Nat := 8

/-- `degreesPerMicro_Shift` from decoders.h (UQ1.15 fixed point). -/
def degreesPerMicro_Shift : Nat := 15

/-- `MICROS_PER_SEC` (microseconds in one second). -/
def MICROS_PER_SEC : Nat := 1000000

/-- `MICROS_PER_MIN` (microseconds in one minute). -/
def MICROS_PER_MIN : Nat := 60000000

/-- `CRANK_SPEED` from decoders.h. -/
def CRANK_SPEED : Nat := 0

/-- `CAM_SPEED` from decoders.h. -/
def CAM_SPEED : Nat := 1

/-- `angleToTimeMicroSecPerDegree` (crankMaths.cpp): degrees to microseconds.
The `uint32_t` product `angle * microsPerDegree` wraps modulo 2^32. -/
def angleToTimeMicroSecPerDegree (microsPerDegree : Nat) (angle : Nat) : Nat :=
  RSHIFT_ROUND ((angle * microsPerDegree) % UINT32_LIMIT) microsPerDegree_Shift

/-- `timeToAngleDegPerMicroSec` (crankMaths.cpp): microseconds to degrees.
The `uint32_t` product wraps modulo 2^32 and the result is returned as a
`uint16_t`, hence the outer `% 2^16`. -/
def timeToAngleDegPerMicroSec (degreesPerMicro : Nat) (time : Nat) : Nat :=
  RSHIFT_ROUND ((time * degreesPerMicro) % UINT32_LIMIT) degreesPerMicro_Shift % UINT16_LIMIT

/-- The revolution-time record: `revolutionTime` plus its two fixed-point
derivatives `microsPerDegree` (UQ24.8) and `degreesPerMicro` (UQ1.15). -/
structure RevState where
  revolutionTime : Nat
  microsPerDegree : Nat
  degreesPerMicro : Nat
  deriving DecidableEq, Repr

/-- `SetRevolutionTime` (decoders.cpp): sole writer of the two fixed-point
derivatives.  `revolutionTime << 8` is a `uint32_t` shift (wraps mod 2^32) and
the `degreesPerMicro` result is cast to `uint16_t`.  Returns the updated state
and the `bool` result of the C function. -/
def SetRevolutionTime (s : RevState) (revTime : Nat) : RevState × Bool :=
  if revTime ≠ s.revolutionTime then
    ({ revolutionTime := revTime,
       microsPerDegree := div360 ((revTime * 2 ^ microsPerDegree_Shift) % UINT32_LIMIT),
       degreesPerMicro :=
         UDIV_ROUND_CLOSEST (360 * 2 ^ degreesPerMicro_Shift) revTime % UINT16_LIMIT },
     true)
  else (s, false)

/-- Both fixed-point derivatives reflect the stored revolution time. -/
def revConsistent (s : RevState) : Prop :=
  s.microsPerDegree = div360 ((s.revolutionTime * 2 ^ microsPerDegree_Shift) % UINT32_LIMIT) ∧
  s.degreesPerMicro =
    UDIV_ROUND_CLOSEST (360 * 2 ^ degreesPerMicro_Shift) s.revolutionTime % UINT16_LIMIT

instance (s : RevState) : Decidable (revConsistent s) := by
  unfold revConsistent; infer_instance

/-- `clampRpm` (decoders.cpp): a computed RPM at or above the maximum is
discarded in favour of the previous stored reading `currentRPM`. -/
def clampRpm (maxRpm currentRPM rpm : Nat) : Nat :=
  if maxRpm ≤ rpm then currentRPM else rpm

/-- `RpmFromRevolutionTimeUs` (decoders.cpp): rounded `MICROS_PER_MIN /
revTime`, via the narrow fast path when `revTime < UINT16_MAX`, both results
cast to `uint16_t`, then clamped by `clampRpm`. -/
def RpmFromRevolutionTimeUs (maxRpm currentRPM revTime : Nat) : Nat :=
  if revTime < UINT16_LIMIT - 1 then
    clampRpm maxRpm currentRPM (udiv_32_16_closest MICROS_PER_MIN revTime)
  else
    clampRpm maxRpm currentRPM (UDIV_ROUND_CLOSEST MICROS_PER_MIN revTime % UINT16_LIMIT)

/-- The secondary-trigger sub-modes of the Missing-Tooth pattern
(`SEC_TRIGGER_SINGLE`, `SEC_TRIGGER_4_1`, `SEC_TRIGGER_POLL`,
`SEC_TRIGGER_TOYOTA_3` from globals.h, modelled as an enumeration since only
the case structure matters). -/
inductive SecPattern where
  | single
  | four1
  | poll
  | toyota3
  deriving DecidableEq, Repr

/-- The configuration fields (configPage4 and friends) read by the embedded
decoder functions.  Set once at setup, never mutated by decode logic. -/
structure Config where
  triggerTeeth : Nat
  triggerMissingTeeth : Nat
  TrigSpeed : Nat
  triggerAngle : Int
  StgCycles : Nat
  useResync : Nat
  triggerFilter : Nat
  trigPatternSec : SecPattern
  deriving DecidableEq, Repr

/-- `setFilter` (decoders.cpp): adaptive primary filter as a fraction of the
just-accepted gap.  `curGap * 3` is a `uint32_t` product (wraps mod 2^32). -/
def setFilter (cfg : Config) (curGap : Nat) : Nat :=
  if cfg.triggerFilter = 0 then 0
  else if cfg.triggerFilter = 1 then curGap / 4
  else if cfg.triggerFilter = 2 then curGap / 2
  else if cfg.triggerFilter = 3 then (curGap * 3) % UINT32_LIMIT / 4
  else 0

/-- The decoder state touched by the Dual-Wheel edge handlers: tooth counter,
timestamp history, adaptive filter durations, sync bookkeeping and the shared
`revolutionTime` global read by the secondary reject branch.  The scratch
globals `curTime`/`curGap` (communication with the tooth logger only) are
modelled as locals; `checkPerToothTiming` only touches external ignition
schedules, so it does not appear in this state. -/
structure DWState where
  toothCurrentCount : Nat
  toothLastToothTime : Nat
  toothLastMinusOneToothTime : Nat
  toothLastSecToothTime : Nat
  toothOneTime : Nat
  toothOneMinusOneTime : Nat
  triggerFilterTime : Nat
  triggerSecFilterTime : Nat
  revolutionOne : Bool
  hasSync : Bool
  startRevolutions : Nat
  syncLossCounter : Nat
  revolutionTime : Nat
  validTrigger : Bool
  deriving DecidableEq, Repr

/-- `triggerPri_DualWheel` (decoders.cpp): primary edge handler.  `curTime` is
the `micros()` reading at the edge. -/
def triggerPri_DualWheel (cfg : Config) (s : DWState) (curTime : Nat) : DWState :=
  let curGap := sub32 curTime s.toothLastToothTime
  if s.triggerFilterTime ≤ curGap then
    let s1 := { s with
      toothCurrentCount := (s.toothCurrentCount + 1) % UINT16_LIMIT,
      validTrigger := true,
      toothLastMinusOneToothTime := s.toothLastToothTime,
      toothLastToothTime := curTime }
    if s1.hasSync then
      let s2 :=
        if s1.toothCurrentCount = 1 ∨ cfg.triggerTeeth < s1.toothCurrentCount then
          { s1 with
            toothCurrentCount := 1,
            revolutionOne := !s1.revolutionOne,
            toothOneMinusOneTime := s1.toothOneTime,
            toothOneTime := curTime,
            startRevolutions :=
              (s1.startRevolutions + (if cfg.TrigSpeed = CAM_SPEED then 2 else 1)) % UINT16_LIMIT }
        else s1
      { s2 with triggerFilterTime := setFilter cfg curGap }
    else s1
  else s

/-- `triggerSec_DualWheel` (decoders.cpp): secondary (cam) edge handler, the
sync authority of the Dual-Wheel pattern.  The three `micros()` calls of the
source are modelled as the single instant `curTime2`. -/
def triggerSec_DualWheel (cfg : Config) (s : DWState) (curTime2 : Nat) : DWState :=
  let curGap2 := sub32 curTime2 s.toothLastSecToothTime
  if s.triggerSecFilterTime ≤ curGap2 then
    let s1 := { s with
      toothLastSecToothTime := curTime2,
      triggerSecFilterTime := curGap2 / 4 }
    let s2 :=
      if s1.hasSync = false ∨ s1.startRevolutions ≤ cfg.StgCycles then
        { s1 with
          toothLastToothTime := curTime2,
          toothLastMinusOneToothTime := sub32 curTime2 (MICROS_PER_MIN / 10 / cfg.triggerTeeth),
          toothCurrentCount := cfg.triggerTeeth,
          triggerFilterTime := 0,
          hasSync := true }
      else
        let s1a :=
          if s1.toothCurrentCount ≠ cfg.triggerTeeth ∧ 2 < s1.startRevolutions then
            { s1 with syncLossCounter := (s1.syncLossCounter + 1) % UINT16_LIMIT }
          else s1
        if cfg.useResync = 1 then { s1a with toothCurrentCount := cfg.triggerTeeth } else s1a
    { s2 with revolutionOne := true }
  else
    { s with triggerSecFilterTime := s.revolutionTime / 2 }

/-- The state touched by `triggerSec_missingTooth`: secondary timestamps,
the adaptive secondary filter, the secondary tooth counter, the sequential
parity bit and the `targetGap2` scratch global.  The VVT1 angle recording
(`triggerRecordVVT1Angle`, which only writes `currentStatus.vvt1Angle` from
the externally dispatched `getCrankAngle`) is modelled as the event counter
`vvt1Records`. -/
structure MTSecState where
  toothLastSecToothTime : Nat
  toothLastMinusOneSecToothTime : Nat
  triggerSecFilterTime : Nat
  secondaryToothCount : Nat
  revolutionOne : Bool
  targetGap2 : Nat
  vvt1Records : Nat
  deriving DecidableEq, Repr

/-- `triggerSec_missingTooth` (decoders.cpp): secondary (cam) edge handler of
the Missing-Tooth pattern.  On a first-ever edge (`toothLastSecToothTime = 0`)
the gap is forced to 0 and the last-tooth timestamp is seeded before the
filter check.  `3 * gap` is a `uint32_t` product (wraps mod 2^32). -/
def triggerSec_missingTooth (cfg : Config) (s : MTSecState) (curTime2 : Nat) : MTSecState :=
  let curGap2 := sub32 curTime2 s.toothLastSecToothTime
  let curGap2 := if s.toothLastSecToothTime = 0 then 0 else curGap2
  let s0 := if s.toothLastSecToothTime = 0 then { s with toothLastSecToothTime := curTime2 } else s
  if s0.triggerSecFilterTime ≤ curGap2 then
    let s1 :=
      match cfg.trigPatternSec with
      | SecPattern.four1 =>
        let tg2 :=
          (3 * sub32 s0.toothLastSecToothTime s0.toothLastMinusOneSecToothTime) % UINT32_LIMIT / 2
        let sa := { s0 with
          targetGap2 := tg2,
          toothLastMinusOneSecToothTime := s0.toothLastSecToothTime }
        if tg2 ≤ curGap2 ∨ 3 < sa.secondaryToothCount then
          { sa with
            secondaryToothCount := 1,
            revolutionOne := true,
            triggerSecFilterTime := 0,
            vvt1Records := sa.vvt1Records + 1 }
        else
          { sa with
            triggerSecFilterTime := curGap2 / 4,
            secondaryToothCount := (sa.secondaryToothCount + 1) % UINT16_LIMIT }
      | SecPattern.poll =>
        { s0 with
          triggerSecFilterTime := curGap2 / 2,
          vvt1Records := s0.vvt1Records + 1 }
      | SecPattern.single =>
        { s0 with
          revolutionOne := true,
          triggerSecFilterTime := curGap2 / 2,
          secondaryToothCount := (s0.secondaryToothCount + 1) % UINT16_LIMIT,
          vvt1Records := s0.vvt1Records + 1 }
      | SecPattern.toyota3 =>
        let sa := { s0 with secondaryToothCount := (s0.secondaryToothCount + 1) % UINT16_LIMIT }
        let sb :=
          if sa.secondaryToothCount = 2 then
            { sa with revolutionOne := true, vvt1Records := sa.vvt1Records + 1 }
          else sa
        { sb with triggerSecFilterTime := curGap2 / 4 }
    { s1 with toothLastSecToothTime := curTime2 }
  else s0

/-- The state touched by `triggerThird_missingTooth`.  The VVT2 angle update
(which only writes `currentStatus.vvt2Angle` from the externally dispatched
`getCrankAngle`) is modelled as the event counter `vvt2Records`. -/
structure MT3State where
  toothLastThirdToothTime : Nat
  triggerThirdFilterTime : Nat
  thirdToothCount : Nat
  vvt2Records : Nat
  deriving DecidableEq, Repr

/-- `triggerThird_missingTooth` (decoders.cpp): tertiary (second cam) edge
handler.  Same seeding structure as the secondary handler. -/
def triggerThird_missingTooth (s : MT3State) (curTime3 : Nat) : MT3State :=
  let curGap3 := sub32 curTime3 s.toothLastThirdToothTime
  let curGap3 := if s.toothLastThirdToothTime = 0 then 0 else curGap3
  let s0 :=
    if s.toothLastThirdToothTime = 0 then { s with toothLastThirdToothTime := curTime3 } else s
  if s0.triggerThirdFilterTime ≤ curGap3 then
    { s0 with
      thirdToothCount := (s0.thirdToothCount + 1) % UINT16_LIMIT,
      triggerThirdFilterTime := curGap3 / 4,
      vvt2Records := s0.vvt2Records + 1,
      toothLastThirdToothTime := curTime3 }
  else s0

/-- Decoder globals read by the crank-angle and end-tooth functions:
`triggerToothAngle` and `triggerActualTeeth` (set in `triggerSetup_*`), the
current `degreesPerMicro` fixed-point scalar, and the `CRANK_ANGLE_MAX`
global.  `CRANK_ANGLE_MAX` itself is set outside src/; modelled from the
spec: 720 for sequential/cam-referenced operation, 360 otherwise. -/
structure DecGlobals where
  triggerToothAngle : Nat
  triggerActualTeeth : Nat
  degreesPerMicro : Nat
  crankAngleMax : Int
  deriving DecidableEq, Repr

/-- The snapshot of volatile decoder state copied inside the
`noInterrupts`/`interrupts` critical section of the `getCrankAngle_*`
functions. -/
structure AngleSnapshot where
  toothCurrentCount : Nat
  revolutionOne : Bool
  toothLastToothTime : Nat
  deriving DecidableEq, Repr

/-- The final normalization of both `getCrankAngle_*` functions: one
conditional `- 720` followed by one conditional `+ CRANK_ANGLE_MAX`. -/
def wrapCrankAngle (crankAngleMax : Int) (a : Int) : Int :=
  let a1 := if 720 ≤ a then a - 720 else a
  if a1 < 0 then a1 + crankAngleMax else a1

/-- The un-normalized angle computed by `getCrankAngle_missingTooth`
(decoders.cpp): tooth offset plus base trigger angle, plus 360 on revolution
two of a crank-speed sequential cycle, plus the time-extrapolated component.
`now` is the `micros()` reading (`lastCrankAngleCalc`). -/
def rawCrankAngle_missingTooth (cfg : Config) (g : DecGlobals) (s : AngleSnapshot)
    (now : Nat) : Int :=
  let crankAngle := ((s.toothCurrentCount : Int) - 1) * (g.triggerToothAngle : Int)
    + cfg.triggerAngle
  let crankAngle :=
    if s.revolutionOne = true ∧ cfg.TrigSpeed = CRANK_SPEED then crankAngle + 360 else crankAngle
  let elapsedTime := sub32 now s.toothLastToothTime
  crankAngle + (timeToAngleDegPerMicroSec g.degreesPerMicro elapsedTime : Int)

/-- `getCrankAngle_missingTooth` (decoders.cpp). -/
def getCrankAngle_missingTooth (cfg : Config) (g : DecGlobals) (s : AngleSnapshot)
    (now : Nat) : Int :=
  wrapCrankAngle g.crankAngleMax (rawCrankAngle_missingTooth cfg g s now)

/-- The un-normalized angle computed by `getCrankAngle_DualWheel`
(decoders.cpp).  A snapshotted tooth counter of 0 (secondary tooth was the
last one seen) is replaced by the configured tooth count; the sequential
+360 is applied after the time extrapolation in this variant. -/
def rawCrankAngle_DualWheel (cfg : Config) (g : DecGlobals) (s : AngleSnapshot)
    (now : Nat) : Int :=
  let tempCount := if s.toothCurrentCount = 0 then cfg.triggerTeeth else s.toothCurrentCount
  let crankAngle := ((tempCount : Int) - 1) * (g.triggerToothAngle : Int) + cfg.triggerAngle
  let elapsedTime := sub32 now s.toothLastToothTime
  let crankAngle := crankAngle + (timeToAngleDegPerMicroSec g.degreesPerMicro elapsedTime : Int)
  if s.revolutionOne = true ∧ cfg.TrigSpeed = CRANK_SPEED then crankAngle + 360 else crankAngle

/-- `getCrankAngle_DualWheel` (decoders.cpp). -/
def getCrankAngle_DualWheel (cfg : Config) (g : DecGlobals) (s : AngleSnapshot)
    (now : Nat) : Int :=
  wrapCrankAngle g.crankAngleMax (rawCrankAngle_DualWheel cfg g s now)

/-- `clampToToothCount` (decoders.cpp): nudge the raw end tooth into
`[1, triggerTeeth + toothAdder]` and cast to `uint16_t`. -/
def clampToToothCount (cfg : Config) (toothNum : Int) (toothAdder : Nat) : Nat :=
  let toothRange : Int := (cfg.triggerTeeth : Int) + (toothAdder : Int)
  (nudge 1 toothRange toothNum toothRange).toNat

/-- `clampToActualTeeth` (decoders.cpp): pull a logical tooth in the missing
region down to the last physical tooth, then cap at
`triggerActualTeeth + toothAdder`. -/
def clampToActualTeeth (cfg : Config) (g : DecGlobals) (toothNum : Nat)
    (toothAdder : Nat) : Nat :=
  let toothNum :=
    if g.triggerActualTeeth < toothNum ∧ toothNum ≤ cfg.triggerTeeth then g.triggerActualTeeth
    else toothNum
  min toothNum (g.triggerActualTeeth + toothAdder)

/-- `calcEndTeeth_missingTooth` (decoders.cpp): truncating C division of the
angle delta by the tooth angle, a one-tooth margin for tooth counts above 12,
then both clamps. -/
def calcEndTeeth_missingTooth (cfg : Config) (g : DecGlobals) (endAngle : Int)
    (toothAdder : Nat) : Nat :=
  let tempEndTooth := Int.tdiv (endAngle - cfg.triggerAngle) (g.triggerToothAngle : Int)
  let tempEndTooth := if 12 < cfg.triggerTeeth then tempEndTooth - 1 else tempEndTooth
  clampToActualTeeth cfg g (clampToToothCount cfg tempEndTooth toothAdder) toothAdder

/-- `calcEndTeeth_DualWheel` (decoders.cpp): truncating C division of the
angle delta by the tooth angle, then the tooth-count clamp (no margin and no
physical-teeth clamp in this variant). -/
def calcEndTeeth_DualWheel (cfg : Config) (g : DecGlobals) (ignitionAngle : Int)
    (toothAdder : Nat) : Nat :=
  clampToToothCount cfg
    (Int.tdiv (ignitionAngle - cfg.triggerAngle) (g.triggerToothAngle : Int)) toothAdder

/-- A Dual-Wheel configuration: 60-tooth crank-speed primary with a
single-tooth cam secondary. -/
def cfg1 : Config :=
  { triggerTeeth := 60, triggerMissingTeeth := 0, TrigSpeed := 0, triggerAngle := 0,
    StgCycles := 0, useResync := 0, triggerFilter := 1, trigPatternSec := SecPattern.single }

/-- A synced Dual-Wheel state whose primary and secondary filters (500 us)
both exceed the 100 us gap of an edge arriving at t = 1100 us. -/
def st1 : DWState :=
  { toothCurrentCount := 5, toothLastToothTime := 1000, toothLastMinusOneToothTime := 800,
    toothLastSecToothTime := 1000, toothOneTime := 400, toothOneMinusOneTime := 200,
    triggerFilterTime := 500, triggerSecFilterTime := 500, revolutionOne := false,
    hasSync := true, startRevolutions := 10, syncLossCounter := 0, revolutionTime := 20000,
    validTrigger := false }

/-- A 36-1 crank-speed configuration with base trigger angle 0. -/
def cfg2 : Config :=
  { triggerTeeth := 36, triggerMissingTeeth := 1, TrigSpeed := 0, triggerAngle := 0,
    StgCycles := 0, useResync := 0, triggerFilter := 1, trigPatternSec := SecPattern.single }

/-- Globals for `cfg2`: 10 degrees per tooth, degreesPerMicro of exactly one
degree per microsecond (2^15 in UQ1.15), non-sequential span of 360. -/
def g2 : DecGlobals :=
  { triggerToothAngle := 10, triggerActualTeeth := 35, degreesPerMicro := 32768,
    crankAngleMax := 360 }

/-- Snapshot on the last physical tooth (index 36), revolution one, last tooth
seen at t = 0. -/
def s2 : AngleSnapshot :=
  { toothCurrentCount := 36, revolutionOne := false, toothLastToothTime := 0 }

/-- A consistent revolution-time record for a 20000 us revolution. -/
def st3 : RevState :=
  { revolutionTime := 20000, microsPerDegree := 14222, degreesPerMicro := 590 }

/-- A Missing-Tooth secondary configuration in the single-tooth cam sub-mode. -/
def cfg4 : Config :=
  { triggerTeeth := 36, triggerMissingTeeth := 1, TrigSpeed := 0, triggerAngle := 0,
    StgCycles := 0, useResync := 0, triggerFilter := 1, trigPatternSec := SecPattern.single }

/-- A fresh secondary-input state (no edge seen yet) with the positive filter
duration installed by `triggerSetup_missingTooth`. -/
def s4 : MTSecState :=
  { toothLastSecToothTime := 0, toothLastMinusOneSecToothTime := 0,
    triggerSecFilterTime := 1000, secondaryToothCount := 0, revolutionOne := false,
    targetGap2 := 0, vvt1Records := 0 }

/-- A fresh tertiary-input state with a positive filter duration. -/
def t4 : MT3State :=
  { toothLastThirdToothTime := 0, triggerThirdFilterTime := 7, thirdToothCount := 0,
    vvt2Records := 0 }

/-- A fresh tertiary-input state with a zero filter duration (the power-on
value of `triggerThirdFilterTime`). -/
def t4c : MT3State :=
  { toothLastThirdToothTime := 0, triggerThirdFilterTime := 0, thirdToothCount := 0,
    vvt2Records := 0 }

/-- An unsynced Dual-Wheel state with an open secondary filter. -/
def st5 : DWState :=
  { toothCurrentCount := 0, toothLastToothTime := 0, toothLastMinusOneToothTime := 0,
    toothLastSecToothTime := 0, toothOneTime := 0, toothOneMinusOneTime := 0,
    triggerFilterTime := 0, triggerSecFilterTime := 0, revolutionOne := false,
    hasSync := false, startRevolutions := 0, syncLossCounter := 0, revolutionTime := 0,
    validTrigger := false }

/-- Globals for a 36-1 wheel: 35 physical teeth. -/
def g6 : DecGlobals :=
  { triggerToothAngle := 10, triggerActualTeeth := 35, degreesPerMicro := 0,
    crankAngleMax := 360 }

/-- A low-tooth-count configuration (8 teeth, at or below the 12-tooth margin
threshold). -/
def cfg8b : Config :=
  { triggerTeeth := 8, triggerMissingTeeth := 0, TrigSpeed := 0, triggerAngle := 0,
    StgCycles := 0, useResync := 0, triggerFilter := 1, trigPatternSec := SecPattern.single }

/-- A 60-tooth Dual-Wheel configuration (6 degrees per tooth), above the
12-tooth margin threshold. -/
def cfg8d : Config :=
  { triggerTeeth := 60, triggerMissingTeeth := 0, TrigSpeed := 0, triggerAngle := 0,
    StgCycles := 0, useResync := 0, triggerFilter := 1, trigPatternSec := SecPattern.single }

/-- Globals for `cfg8d`. -/
def g8d : DecGlobals :=
  { triggerToothAngle := 6, triggerActualTeeth := 60, degreesPerMicro := 0,
    crankAngleMax := 360 }

/-- Dual-Wheel snapshot in which the secondary tooth was the last one seen
(tooth counter snapshotted at 0). -/
def s10 : AngleSnapshot :=
  { toothCurrentCount := 0, revolutionOne := false, toothLastToothTime := 0 }

/-- The rounded result `r` is a nearest integer to the rational `x / den`:
twice the distance from `r * den` to `x` is at most `den`. -/
def IsNearestMul (r x den : Nat) : Prop := 2 * Nat.dist (r * den) x ≤ den

instance (r x den : Nat) : Decidable (IsNearestMul r x den) := by
  unfold IsNearestMul; infer_instance

/-- C1 (amended): a primary Dual-Wheel edge whose gap is strictly below the
primary filter duration leaves the whole decoder state unchanged; a secondary
edge whose gap is strictly below the secondary filter duration leaves the
tooth index and every timestamp unchanged but rewrites the secondary filter
duration to half the revolution time. -/
theorem claim_C1_amended (cfg : Config) (s : DWState) (now : Nat) :
    (sub32 now s.toothLastToothTime < s.triggerFilterTime →
      triggerPri_DualWheel cfg s now = s) ∧
    (sub32 now s.toothLastSecToothTime < s.triggerSecFilterTime →
      triggerSec_DualWheel cfg s now =
        { s with triggerSecFilterTime := s.revolutionTime / 2 }) := by
  constructor
  · intro h
    unfold triggerPri_DualWheel
    rw [if_neg (not_le.mpr h)]
  · intro h
    unfold triggerSec_DualWheel
    rw [if_neg (not_le.mpr h)]

/-- C1 (counterexample): a secondary edge at t = 1100 us with a 100 us gap,
strictly below the 500 us secondary filter, is discarded yet changes the
filter duration (to revolutionTime / 2 = 10000 us), contradicting the claim
that a filtered edge leaves the filter duration unchanged. -/
theorem claim_C1_counterexample :
    sub32 1100 st1.toothLastSecToothTime < st1.triggerSecFilterTime ∧
    (triggerSec_DualWheel cfg1 st1 1100).triggerSecFilterTime ≠ st1.triggerSecFilterTime ∧
    (triggerSec_DualWheel cfg1 st1 1100).toothCurrentCount = st1.toothCurrentCount := by
  decide

/-- C1 (witness): the amended statement evaluated on the concrete rejected
edge at t = 1100 us. -/
theorem claim_C1_witness :
    triggerPri_DualWheel cfg1 st1 1100 = st1 ∧
    triggerSec_DualWheel cfg1 st1 1100 =
      { st1 with triggerSecFilterTime := st1.revolutionTime / 2 } :=
  ⟨(claim_C1_amended cfg1 st1 1100).1 (by decide),
   (claim_C1_amended cfg1 st1 1100).2 (by decide)⟩

/-- C3: `SetRevolutionTime` is a no-op reporting no update when called with
the stored revolution time; on a differing time it reports an update and
rewrites the revolution time together with both fixed-point derivatives, so
derivative consistency is preserved by every call. -/
theorem claim_C3 (s : RevState) (revTime : Nat) :
    (revTime = s.revolutionTime → SetRevolutionTime s revTime = (s, false)) ∧
    (revTime ≠ s.revolutionTime →
      (SetRevolutionTime s revTime).2 = true ∧
      (SetRevolutionTime s revTime).1.revolutionTime = revTime ∧
      revConsistent (SetRevolutionTime s revTime).1) ∧
    (revConsistent s → revConsistent (SetRevolutionTime s revTime).1) := by
  refine ⟨?_, ?_, ?_⟩
  · intro h
    simp [SetRevolutionTime, h]
  · intro h
    simp [SetRevolutionTime, h, revConsistent]
  · intro hc
    by_cases h : revTime = s.revolutionTime
    · simpa [SetRevolutionTime, h] using hc
    · simp [SetRevolutionTime, h, revConsistent]

/-- C3 (witness): the equal-time no-op on a consistent 20000 us record, and
consistency of the record produced by an updating call. -/
theorem claim_C3_witness :
    SetRevolutionTime st3 20000 = (st3, false) ∧
    revConsistent (SetRevolutionTime st3 4000).1 :=
  ⟨(claim_C3 st3 20000).1 (by decide),
   (claim_C3 st3 4000).2.2 (by decide)⟩

/-- C5: a filter-passing Dual-Wheel secondary pulse arriving without sync, or
within the configured startup cycles, forces the primary tooth counter to the
configured tooth count and sets the sync flag. -/
theorem claim_C5 (cfg : Config) (s : DWState) (now : Nat)
    (hf : s.triggerSecFilterTime ≤ sub32 now s.toothLastSecToothTime)
    (hs : s.hasSync = false ∨ s.startRevolutions ≤ cfg.StgCycles) :
    (triggerSec_DualWheel cfg s now).toothCurrentCount = cfg.triggerTeeth ∧
    (triggerSec_DualWheel cfg s now).hasSync = true := by
  rcases hs with hs | hs
  · simp [triggerSec_DualWheel, hf, hs]
  · simp [triggerSec_DualWheel, hf, hs]

/-- C5 (witness): the first secondary pulse on an unsynced 60-tooth Dual-Wheel
state forces the tooth counter to 60 and declares sync. -/
theorem claim_C5_witness :
    (triggerSec_DualWheel cfg1 st5 100).toothCurrentCount = cfg1.triggerTeeth ∧
    (triggerSec_DualWheel cfg1 st5 100).hasSync = true :=
  claim_C5 cfg1 st5 100 (by decide) (by decide)

/-- C7: an RPM computed at or above the configured maximum is discarded in
favour of the previously stored reading, a value strictly below the maximum is
returned as-is, and `RpmFromRevolutionTimeUs` routes every computed value
through this clamp. -/
theorem claim_C7 (maxRpm currentRPM rpm revTime : Nat) :
    (maxRpm ≤ rpm → clampRpm maxRpm currentRPM rpm = currentRPM) ∧
    (rpm < maxRpm → clampRpm maxRpm currentRPM rpm = rpm) ∧
    RpmFromRevolutionTimeUs maxRpm currentRPM revTime =
      clampRpm maxRpm currentRPM (UDIV_ROUND_CLOSEST MICROS_PER_MIN revTime % UINT16_LIMIT) := by
  refine ⟨?_, ?_, ?_⟩
  · intro h
    simp [clampRpm, h]
  · intro h
    simp [clampRpm, not_le.mpr h]
  · unfold RpmFromRevolutionTimeUs udiv_32_16_closest
    split <;> rfl

/-- C7 (witness): with a maximum of 18000 RPM and a stored reading of 3000, a
computed 20000 RPM is discarded, a computed 5000 RPM is returned as-is, and
the revolution-time path routes through the clamp. -/
theorem claim_C7_witness :
    clampRpm 18000 3000 20000 = 3000 ∧
    clampRpm 18000 3000 5000 = 5000 ∧
    RpmFromRevolutionTimeUs 18000 3000 12000 =
      clampRpm 18000 3000 (UDIV_ROUND_CLOSEST MICROS_PER_MIN 12000 % UINT16_LIMIT) :=
  ⟨(claim_C7 18000 3000 20000 12000).1 (by decide),
   (claim_C7 18000 3000 5000 12000).2.1 (by decide),
   (claim_C7 18000 3000 5000 12000).2.2⟩

/-- C10: when the snapshotted Dual-Wheel tooth counter is 0 (the secondary
tooth was the last one seen), `getCrankAngle_DualWheel` computes exactly the
angle it would compute with the counter at the configured tooth count. -/
theorem claim_C10 (cfg : Config) (g : DecGlobals) (s : AngleSnapshot) (now : Nat)
    (h : s.toothCurrentCount = 0) :
    getCrankAngle_DualWheel cfg g s now =
      getCrankAngle_DualWheel cfg g { s with toothCurrentCount := cfg.triggerTeeth } now := by
  simp [getCrankAngle_DualWheel, rawCrankAngle_DualWheel, h]

/-- C10 (witness): the zero-counter snapshot evaluated against the 60-tooth
substitute on a concrete Dual-Wheel configuration. -/
theorem claim_C10_witness :
    getCrankAngle_DualWheel cfg8d g8d s10 7 =
      getCrankAngle_DualWheel cfg8d g8d { s10 with toothCurrentCount := cfg8d.triggerTeeth } 7 :=
  claim_C10 cfg8d g8d s10 7 (by decide)

/-- C2 (amended): both `getCrankAngle` variants return a value in `[0, 720)`
provided the un-normalized angle lies in `[-CRANK_ANGLE_MAX, 1440)` and
`CRANK_ANGLE_MAX` is in `(0, 720]`; the single conditional wrap step gives no
range guarantee beyond that, and no guarantee of staying below a 360-degree
span. -/
theorem claim_C2_amended (cfg : Config) (g : DecGlobals) (s : AngleSnapshot) (now : Nat)
    (h0 : 0 < g.crankAngleMax) (h1 : g.crankAngleMax ≤ 720) :
    (-g.crankAngleMax ≤ rawCrankAngle_missingTooth cfg g s now →
      rawCrankAngle_missingTooth cfg g s now < 1440 →
      0 ≤ getCrankAngle_missingTooth cfg g s now ∧
        getCrankAngle_missingTooth cfg g s now < 720) ∧
    (-g.crankAngleMax ≤ rawCrankAngle_DualWheel cfg g s now →
      rawCrankAngle_DualWheel cfg g s now < 1440 →
      0 ≤ getCrankAngle_DualWheel cfg g s now ∧
        getCrankAngle_DualWheel cfg g s now < 720) := by
  constructor
  · intro ha hb
    simp only [getCrankAngle_missingTooth, wrapCrankAngle]
    split_ifs <;> omega
  · intro ha hb
    simp only [getCrankAngle_DualWheel, wrapCrankAngle]
    split_ifs <;> omega

/-- C2 (counterexample): a 36-1 crank-speed wheel in non-sequential operation
(span `CRANK_ANGLE_MAX = 360`), snapshotted on tooth 36 with 20 us elapsed at
one degree per microsecond, yields a crank angle of 370: not negative, but at
or above the pattern's 360-degree span, contradicting the claimed range. -/
theorem claim_C2_counterexample :
    getCrankAngle_missingTooth cfg2 g2 s2 20 = 370 ∧
    ¬ getCrankAngle_missingTooth cfg2 g2 s2 20 < g2.crankAngleMax := by
  decide

/-- C2 (witness): the amended bounds evaluated on the same concrete 36-1
configuration, whose un-normalized angle 370 lies in `[-360, 1440)`. -/
theorem claim_C2_witness :
    (0 ≤ getCrankAngle_missingTooth cfg2 g2 s2 20 ∧
      getCrankAngle_missingTooth cfg2 g2 s2 20 < 720) ∧
    (0 ≤ getCrankAngle_DualWheel cfg2 g2 s2 20 ∧
      getCrankAngle_DualWheel cfg2 g2 s2 20 < 720) :=
  ⟨(claim_C2_amended cfg2 g2 s2 20 (by decide) (by decide)).1 (by decide) (by decide),
   (claim_C2_amended cfg2 g2 s2 20 (by decide) (by decide)).2 (by decide) (by decide)⟩

/-- C4 (amended): the first-ever edge on the Missing-Tooth secondary or
tertiary input always seeds that input's last-tooth timestamp, but it is
processed as an accepted edge only when the input's current filter duration is
zero: with a positive filter duration the zeroed gap fails the filter test and
nothing besides the timestamp changes, while with a zero filter duration the
acceptance body runs (the tertiary tooth counter advances). -/
theorem claim_C4_amended (cfg : Config) (s : MTSecState) (t : MT3State) (now : Nat) :
    (s.toothLastSecToothTime = 0 → 0 < s.triggerSecFilterTime →
      triggerSec_missingTooth cfg s now = { s with toothLastSecToothTime := now }) ∧
    (t.toothLastThirdToothTime = 0 → 0 < t.triggerThirdFilterTime →
      triggerThird_missingTooth t now = { t with toothLastThirdToothTime := now }) ∧
    (t.toothLastThirdToothTime = 0 → t.triggerThirdFilterTime = 0 →
      (triggerThird_missingTooth t now).thirdToothCount =
        (t.thirdToothCount + 1) % UINT16_LIMIT) := by
  refine ⟨?_, ?_, ?_⟩
  · intro h0 hf
    simp [triggerSec_missingTooth, h0, Nat.not_le.mpr hf]
  · intro h0 hf
    simp [triggerThird_missingTooth, h0, Nat.not_le.mpr hf]
  · intro h0 hf
    simp [triggerThird_missingTooth, h0, hf]

/-- C4 (counterexample): a first-ever secondary edge at t = 5000 us in the
single-tooth cam sub-mode, with the positive filter duration installed by
setup (1000 us), seeds only the timestamp: the secondary tooth counter is not
advanced and the filter duration is not re-seeded, so the edge is not
"accepted unconditionally, regardless of the current filter duration". -/
theorem claim_C4_counterexample :
    s4.toothLastSecToothTime = 0 ∧
    (triggerSec_missingTooth cfg4 s4 5000).secondaryToothCount = 0 ∧
    (triggerSec_missingTooth cfg4 s4 5000).triggerSecFilterTime = 1000 ∧
    (triggerSec_missingTooth cfg4 s4 5000).toothLastSecToothTime = 5000 := by
  decide

/-- C4 (witness): the amended statement evaluated on concrete first-ever edges
for the secondary (positive filter), tertiary (positive filter) and tertiary
(zero filter) inputs. -/
theorem claim_C4_witness :
    triggerSec_missingTooth cfg4 s4 5000 = { s4 with toothLastSecToothTime := 5000 } ∧
    triggerThird_missingTooth t4 5000 = { t4 with toothLastThirdToothTime := 5000 } ∧
    (triggerThird_missingTooth t4c 5000).thirdToothCount =
      (t4c.thirdToothCount + 1) % UINT16_LIMIT :=
  ⟨(claim_C4_amended cfg4 s4 t4 5000).1 (by decide) (by decide),
   (claim_C4_amended cfg4 s4 t4 5000).2.1 (by decide) (by decide),
   (claim_C4_amended cfg4 s4 t4c 5000).2.2 (by decide) (by decide)⟩

/-- C6: for any ignition cutoff angle and tooth adder, the Dual-Wheel end
tooth lies in `[1, triggerTeeth + toothAdder]`, and the Missing-Tooth end
tooth additionally never exceeds the physically present tooth count plus the
adder (given at least one physical tooth and a physical count not above the
configured count). -/
theorem claim_C6 (cfg : Config) (g : DecGlobals) (endAngle : Int) (toothAdder : Nat)
    (h1 : 1 ≤ g.triggerActualTeeth) (h2 : g.triggerActualTeeth ≤ cfg.triggerTeeth) :
    (1 ≤ calcEndTeeth_DualWheel cfg g endAngle toothAdder ∧
      calcEndTeeth_DualWheel cfg g endAngle toothAdder ≤ cfg.triggerTeeth + toothAdder) ∧
    (1 ≤ calcEndTeeth_missingTooth cfg g endAngle toothAdder ∧
      calcEndTeeth_missingTooth cfg g endAngle toothAdder ≤ cfg.triggerTeeth + toothAdder ∧
      calcEndTeeth_missingTooth cfg g endAngle toothAdder ≤
        g.triggerActualTeeth + toothAdder) := by
  constructor
  · simp only [calcEndTeeth_DualWheel, clampToToothCount, nudge]
    omega
  · simp only [calcEndTeeth_missingTooth, clampToActualTeeth, clampToToothCount, nudge]
    split_ifs <;> omega

/-- C6 (witness): the end-tooth bounds evaluated on a 36-1 wheel at a
sequential adder of 36 and an ignition angle of 100 degrees. -/
theorem claim_C6_witness :
    (1 ≤ calcEndTeeth_DualWheel cfg2 g6 100 36 ∧
      calcEndTeeth_DualWheel cfg2 g6 100 36 ≤ cfg2.triggerTeeth + 36) ∧
    (1 ≤ calcEndTeeth_missingTooth cfg2 g6 100 36 ∧
      calcEndTeeth_missingTooth cfg2 g6 100 36 ≤ cfg2.triggerTeeth + 36 ∧
      calcEndTeeth_missingTooth cfg2 g6 100 36 ≤ g6.triggerActualTeeth + 36) :=
  claim_C6 cfg2 g6 100 36 (by decide) (by decide)

/-- C8 (amended): the Missing-Tooth end-tooth computation subtracts one tooth
of margin from the raw quotient exactly when the configured tooth count
exceeds 12 and subtracts none otherwise; the Dual-Wheel end-tooth computation
never subtracts a margin, for any tooth count. -/
theorem claim_C8_amended (cfg : Config) (g : DecGlobals) (endAngle : Int) (toothAdder : Nat) :
    (12 < cfg.triggerTeeth →
      calcEndTeeth_missingTooth cfg g endAngle toothAdder =
        clampToActualTeeth cfg g
          (clampToToothCount cfg
            (Int.tdiv (endAngle - cfg.triggerAngle) (g.triggerToothAngle : Int) - 1)
            toothAdder) toothAdder) ∧
    (cfg.triggerTeeth ≤ 12 →
      calcEndTeeth_missingTooth cfg g endAngle toothAdder =
        clampToActualTeeth cfg g
          (clampToToothCount cfg
            (Int.tdiv (endAngle - cfg.triggerAngle) (g.triggerToothAngle : Int))
            toothAdder) toothAdder) ∧
    calcEndTeeth_DualWheel cfg g endAngle toothAdder =
      clampToToothCount cfg
        (Int.tdiv (endAngle - cfg.triggerAngle) (g.triggerToothAngle : Int)) toothAdder := by
  refine ⟨?_, ?_, rfl⟩
  · intro h
    simp [calcEndTeeth_missingTooth, h]
  · intro h
    simp [calcEndTeeth_missingTooth, Nat.not_lt.mpr h]

/-- C8 (counterexample): on a 60-tooth Dual-Wheel pattern (more than 12
teeth, 6 degrees per tooth, base angle 0) with ignition angle 60, the code
returns the unsubtracted clamped quotient 10, not the margin-subtracted value
9 the claim requires for every pattern with more than 12 teeth. -/
theorem claim_C8_counterexample :
    12 < cfg8d.triggerTeeth ∧
    calcEndTeeth_DualWheel cfg8d g8d 60 0 = 10 ∧
    calcEndTeeth_DualWheel cfg8d g8d 60 0 ≠
      clampToToothCount cfg8d
        (Int.tdiv (60 - cfg8d.triggerAngle) (g8d.triggerToothAngle : Int) - 1) 0 := by
  decide

/-- C8 (witness): the amended margin rule evaluated on a 36-tooth
Missing-Tooth wheel, an 8-tooth wheel, and the 60-tooth Dual-Wheel pattern. -/
theorem claim_C8_witness :
    calcEndTeeth_missingTooth cfg2 g6 100 0 =
      clampToActualTeeth cfg2 g6
        (clampToToothCount cfg2
          (Int.tdiv (100 - cfg2.triggerAngle) (g6.triggerToothAngle : Int) - 1) 0) 0 ∧
    calcEndTeeth_missingTooth cfg8b g6 100 0 =
      clampToActualTeeth cfg8b g6
        (clampToToothCount cfg8b
          (Int.tdiv (100 - cfg8b.triggerAngle) (g6.triggerToothAngle : Int)) 0) 0 ∧
    calcEndTeeth_DualWheel cfg8d g8d 100 0 =
      clampToToothCount cfg8d
        (Int.tdiv (100 - cfg8d.triggerAngle) (g8d.triggerToothAngle : Int)) 0 :=
  ⟨(claim_C8_amended cfg2 g6 100 0).1 (by decide),
   (claim_C8_amended cfg8b g6 100 0).2.1 (by decide),
   (claim_C8_amended cfg8d g8d 100 0).2.2⟩

/-- C9 (amended): the conversions round to nearest whenever the fixed-point
product plus the rounding constant fits a `uint32_t` and, for the
time-to-angle direction, the rounded result fits the `uint16_t` return type;
outside those ranges the wrapped product or truncated return value is not a
nearest integer of the true quotient. -/
theorem claim_C9_amended (degreesPerMicro microsPerDegree time angle : Nat)
    (h1 : time * degreesPerMicro + 2 ^ 14 < UINT32_LIMIT)
    (h2 : (time * degreesPerMicro + 2 ^ 14) / 2 ^ 15 < UINT16_LIMIT)
    (h3 : angle * microsPerDegree + 2 ^ 7 < UINT32_LIMIT) :
    IsNearestMul (timeToAngleDegPerMicroSec degreesPerMicro time)
      (time * degreesPerMicro) (2 ^ 15) ∧
    IsNearestMul (angleToTimeMicroSecPerDegree microsPerDegree angle)
      (angle * microsPerDegree) (2 ^ 8) := by
  constructor
  · have hx : time * degreesPerMicro % UINT32_LIMIT = time * degreesPerMicro :=
      Nat.mod_eq_of_lt (by unfold UINT32_LIMIT at h1 ⊢; omega)
    unfold IsNearestMul timeToAngleDegPerMicroSec RSHIFT_ROUND degreesPerMicro_Shift
    simp only [show (15 : Nat) - 1 = 14 from rfl]
    rw [hx, Nat.mod_eq_of_lt h2]
    have hd := Nat.div_add_mod (time * degreesPerMicro + 2 ^ 14) (2 ^ 15)
    have hm : (time * degreesPerMicro + 2 ^ 14) % 2 ^ 15 < 2 ^ 15 :=
      Nat.mod_lt _ (by norm_num)
    simp only [Nat.dist]
    omega
  · have hx : angle * microsPerDegree % UINT32_LIMIT = angle * microsPerDegree :=
      Nat.mod_eq_of_lt (by unfold UINT32_LIMIT at h3 ⊢; omega)
    unfold IsNearestMul angleToTimeMicroSecPerDegree RSHIFT_ROUND microsPerDegree_Shift
    simp only [show (8 : Nat) - 1 = 7 from rfl]
    rw [hx]
    have hd := Nat.div_add_mod (angle * microsPerDegree + 2 ^ 7) (2 ^ 8)
    have hm : (angle * microsPerDegree + 2 ^ 7) % 2 ^ 8 < 2 ^ 8 :=
      Nat.mod_lt _ (by norm_num)
    simp only [Nat.dist]
    omega

/-- C9 (counterexample): at degreesPerMicro = 2^15 (one degree per
microsecond) and an elapsed time of 70000 us, the product does not overflow
but the rounded quotient 70000 exceeds the `uint16_t` return range, so the
function returns 4464 - not a nearest integer to the true quotient,
contradicting the claim for every elapsed time. -/
theorem claim_C9_counterexample :
    timeToAngleDegPerMicroSec 32768 70000 = 4464 ∧
    ¬ IsNearestMul (timeToAngleDegPerMicroSec 32768 70000) (70000 * 32768) (2 ^ 15) := by
  decide

/-- C9 (witness): round-to-nearest verified at 20 us, one degree per
microsecond, and at 3 degrees, 1 microsecond per degree (UQ24.8 value 256). -/
theorem claim_C9_witness :
    IsNearestMul (timeToAngleDegPerMicroSec 32768 20) (20 * 32768) (2 ^ 15) ∧
    IsNearestMul (angleToTimeMicroSecPerDegree 256 3) (3 * 256) (2 ^ 8) :=
  claim_C9_amended 32768 256 20 3 (by decide) (by decide) (by decide)

end Speeduino
